import Mathlib

/-!
Shallow embedding of the Loan ShArc core contracts:
`FreelanceCreditScorer` (src/blockchain/hello-arc/src/FreelanceCreditScorer.sol),
`CreditScore` and `CreditLoan` (the Solidity file stored unnamed in the repo).
All Solidity unsigned integers are modelled as `Nat` (Solidity 0.8 arithmetic
reverts on overflow; the claims below never depend on wrap-around), addresses
as `Nat` with `0` playing the role of `address(0)`, and reverts as
`Except.error`.
-/

namespace LoanShArc

/-! ## FreelanceCreditScorer: data model -/

/-- Mirrors `struct PlatformReceipt` of FreelanceCreditScorer.sol. -/
structure PlatformReceipt where
  platformId : Nat
  totalEarnedUsdc : Nat
  csvSampleCount : Nat
  lastPayoutEpoch : Nat
  onTimeRatioBps : Nat
deriving DecidableEq

/-- Mirrors `struct FreelanceHistory`. -/
structure FreelanceHistory where
  platforms : List PlatformReceipt
  lookbackMonths : Nat
  snapshotTimestamp : Nat
deriving DecidableEq

/-- Mirrors `struct CreditDecision`. -/
structure CreditDecision where
  creditScore : Nat
  borrowingLimit : Nat
  aprBps : Nat
  repaymentPeriodDays : Nat
  repaymentCount : Nat
deriving DecidableEq

/-- The only scorer error: `error InvalidHistory()`. -/
inductive ScorerError where
  | invalidHistory
deriving DecidableEq

def BASIS_POINTS : Nat := 10000

def MAX_SCORE : Nat := 1000

/-- Mirrors `_cap(value, maxValue)`. -/
def cap (value maxValue : Nat) : Nat :=
  if value > maxValue then maxValue else value

/-- Mirrors `_freshnessScore(snapshotTimestamp, lastPayoutEpoch)`;
`1 days` in Solidity is 86400 seconds. -/
def freshnessScore (snapshotTimestamp lastPayoutEpoch : Nat) : Nat :=
  if lastPayoutEpoch = 0 ∨ snapshotTimestamp ≤ lastPayoutEpoch then
    150
  else
    let daysStale := (snapshotTimestamp - lastPayoutEpoch) / 86400
    if daysStale ≥ 90 then 0
    else
      let penalty := daysStale * 150 / 90
      150 - penalty

/-- Mirrors `_deriveApr(score)`. -/
def deriveApr (score : Nat) : Nat :=
  let aprReduction := score * 1500 / MAX_SCORE
  let aprBps := 2500 - aprReduction
  if aprBps < 500 then 500 else aprBps

/-- Mirrors `_schedule(score)`; returns `(totalDays, installments)`. -/
def schedule (score : Nat) : Nat × Nat :=
  let installments := if score ≥ 800 then 6 else if score ≥ 650 then 4 else 3
  (installments * 30, installments)

/-- Accumulator of the platform loop inside `_buildDecision`. -/
structure ScoreAcc where
  totalVolume : Nat
  weightedOnTime : Nat
  totalSamples : Nat
  freshestPayout : Nat
deriving DecidableEq

/-- One iteration of the platform loop inside `_buildDecision`. -/
def accumReceipt (a : ScoreAcc) (receipt : PlatformReceipt) : ScoreAcc :=
  { totalVolume := a.totalVolume + receipt.totalEarnedUsdc
    weightedOnTime := a.weightedOnTime + receipt.onTimeRatioBps * receipt.totalEarnedUsdc
    totalSamples := a.totalSamples + receipt.csvSampleCount
    freshestPayout :=
      if receipt.lastPayoutEpoch > a.freshestPayout then receipt.lastPayoutEpoch
      else a.freshestPayout }

/-- Mirrors `_buildDecision(history)`. -/
def buildDecision (history : FreelanceHistory) : Except ScorerError CreditDecision :=
  if history.platforms.length = 0 ∨ history.lookbackMonths = 0 ∨
      history.snapshotTimestamp = 0 then
    Except.error ScorerError.invalidHistory
  else
    let acc := history.platforms.foldl accumReceipt ⟨0, 0, 0, 0⟩
    let avgMonthlyIncome := acc.totalVolume / history.lookbackMonths
    let avgOnTimeBps :=
      if acc.totalVolume = 0 then BASIS_POINTS else acc.weightedOnTime / acc.totalVolume
    let score0 := cap ((avgMonthlyIncome / 1000000) * 12) 400
    let score1 := score0 + cap (history.lookbackMonths * 12) 150
    let score2 := score1 + cap (history.platforms.length * 70) 200
    let score3 := score2 + cap (avgOnTimeBps * 150 / BASIS_POINTS) 150
    let score4 := score3 + cap (acc.totalSamples * 5) 150
    let score5 := score4 + freshnessScore history.snapshotTimestamp acc.freshestPayout
    let finalScore := if score5 > MAX_SCORE then MAX_SCORE else score5
    let borrowingLimit := acc.totalVolume * 40 / 100
    let aprBps := deriveApr finalScore
    let sched := schedule finalScore
    Except.ok
      { creditScore := finalScore
        borrowingLimit := borrowingLimit
        aprBps := aprBps
        repaymentPeriodDays := sched.1
        repaymentCount := sched.2 }

/-! ## FreelanceCreditScorer: contract state and entry points -/

/-- The all-zero decision returned by the `lastDecision` mapping for an
address that was never written. -/
def zeroDecision : CreditDecision :=
  { creditScore := 0, borrowingLimit := 0, aprBps := 0
    repaymentPeriodDays := 0, repaymentCount := 0 }

/-- Storage of `FreelanceCreditScorer`: the `lastDecision` mapping. -/
structure ScorerState where
  lastDecision : Nat → CreditDecision

/-- Freshly deployed scorer: every mapping slot reads as zero. -/
def initialScorerState : ScorerState :=
  { lastDecision := fun _ => zeroDecision }

/-- Mirrors `evaluateAndStore`: computes the decision and stores it under
the caller's address. -/
def evaluateAndStore (st : ScorerState) (caller : Nat) (history : FreelanceHistory) :
    Except ScorerError (CreditDecision × ScorerState) :=
  match buildDecision history with
  | Except.error e => Except.error e
  | Except.ok d =>
      Except.ok (d, { lastDecision := fun a => if a = caller then d else st.lastDecision a })

/-- Mirrors `previewDecision`: pure, returns the decision and the unchanged
state. -/
def previewDecision (st : ScorerState) (history : FreelanceHistory) :
    Except ScorerError (CreditDecision × ScorerState) :=
  match buildDecision history with
  | Except.error e => Except.error e
  | Except.ok d => Except.ok (d, st)

/-- Mirrors `getLastDecision`. -/
def getLastDecision (st : ScorerState) (user : Nat) : CreditDecision :=
  st.lastDecision user

/-! ## CreditScore contract -/

/-- Storage of the `CreditScore` contract: `admin`, the private
`creditScore` mapping and the public `lastUpdated` mapping. -/
structure CreditScoreState where
  admin : Nat
  creditScore : Nat → Nat
  lastUpdated : Nat → Nat

/-- The `CreditScore` constructor: `admin = msg.sender`, mappings zeroed. -/
def initialCreditScoreState (deployer : Nat) : CreditScoreState :=
  { admin := deployer, creditScore := fun _ => 0, lastUpdated := fun _ => 0 }

/-- Mirrors `CreditScore.setAdmin` (with the `onlyAdmin` modifier). -/
def setAdmin (st : CreditScoreState) (caller newAdmin : Nat) :
    Except String CreditScoreState :=
  if caller ≠ st.admin then Except.error "Not authorized"
  else if newAdmin = 0 then Except.error "Invalid admin"
  else Except.ok { st with admin := newAdmin }

/-- Mirrors `CreditScore.setCreditScore` (with the `onlyAdmin` modifier);
`time` stands for `block.timestamp`. -/
def setCreditScore (st : CreditScoreState) (caller user score time : Nat) :
    Except String CreditScoreState :=
  if caller ≠ st.admin then Except.error "Not authorized"
  else if user = 0 then Except.error "Invalid user"
  else if ¬ score > 0 then Except.error "Score must be > 0"
  else
    Except.ok
      { st with
        creditScore := fun a => if a = user then score else st.creditScore a
        lastUpdated := fun a => if a = user then time else st.lastUpdated a }

/-- Mirrors `CreditScore.getCreditScore`: `(score, updatedAt)`. -/
def getCreditScore (st : CreditScoreState) (user : Nat) : Nat × Nat :=
  (st.creditScore user, st.lastUpdated user)

/-- The public state-changing entry points of `CreditScore`. -/
inductive ScoreOp where
  | setAdmin (caller newAdmin : Nat)
  | setCreditScore (caller user score time : Nat)

/-- Runs one `CreditScore` transaction: a revert leaves storage unchanged. -/
def scoreExec (st : CreditScoreState) (op : ScoreOp) : CreditScoreState :=
  match op with
  | ScoreOp.setAdmin caller newAdmin =>
      match setAdmin st caller newAdmin with
      | Except.ok st' => st'
      | Except.error _ => st
  | ScoreOp.setCreditScore caller user score time =>
      match setCreditScore st caller user score time with
      | Except.ok st' => st'
      | Except.error _ => st

/-- Runs a sequence of `CreditScore` transactions. -/
def scoreExecList (st : CreditScoreState) (ops : List ScoreOp) : CreditScoreState :=
  ops.foldl scoreExec st

/-! ## CreditLoan contract -/

/-- Mirrors `struct Loan`. -/
structure Loan where
  id : Nat
  borrower : Nat
  principal : Nat
  serviceFee : Nat
  totalOwed : Nat
  amountRepaid : Nat
  timestamp : Nat
  active : Bool
deriving DecidableEq

/-- Custom errors of `CreditLoan`; `NotOwner` stands for the
`OwnableUnauthorizedAccount` revert of OpenZeppelin's `Ownable`. -/
inductive LoanError where
  | NoActiveLoan
  | InvalidAmount
  | OverpaymentNotAllowed
  | InsufficientLiquidity
  | NotBorrower
  | InvalidServiceFeeRate
  | InsufficientCreditScore
  | NotOwner
deriving DecidableEq

/-- Storage of `CreditLoan`.  `loans` maps ids to records (`none` for a slot
never written, which Solidity reads as the zero struct with
`active = false`); `liquidity` models `USDC.balanceOf(address(this))`;
`creditScoreContract` is `none` for `address(0)` and otherwise carries the
score mapping the external `ICreditScore.getCreditScore` call would read. -/
structure CreditLoanState where
  owner : Nat
  serviceFeeRate : Nat
  creditScoreContract : Option (Nat → Nat)
  minCreditScore : Nat
  nextLoanId : Nat
  loans : Nat → Option Loan
  borrowerLoans : Nat → List Nat
  liquidity : Nat

/-- The `CreditLoan` constructor: `serviceFeeRate = 1000`, everything else
zeroed, no USDC held yet. -/
def initialLoanState (deployer : Nat) : CreditLoanState :=
  { owner := deployer, serviceFeeRate := 1000, creditScoreContract := none
    minCreditScore := 0, nextLoanId := 0, loans := fun _ => none
    borrowerLoans := fun _ => [], liquidity := 0 }

/-- Mirrors `CreditLoan.fund` (owner-only): pulls `amount` USDC into the
contract. -/
def fund (s : CreditLoanState) (caller amount : Nat) :
    Except LoanError CreditLoanState :=
  if caller ≠ s.owner then Except.error LoanError.NotOwner
  else if amount = 0 then Except.error LoanError.InvalidAmount
  else Except.ok { s with liquidity := s.liquidity + amount }

/-- The credit-score gate inside `issueLoan`: Solidity checks the score only
when `minCreditScore > 0 && address(creditScoreContract) != address(0)`. -/
def creditGateRejects (s : CreditLoanState) (borrower : Nat) : Prop :=
  match s.creditScoreContract with
  | none => False
  | some scores => 0 < s.minCreditScore ∧ scores borrower < s.minCreditScore

instance (s : CreditLoanState) (borrower : Nat) :
    Decidable (creditGateRejects s borrower) := by
  unfold creditGateRejects
  cases s.creditScoreContract <;> infer_instance

/-- Mirrors `CreditLoan.issueLoan` (owner-only); `time` stands for
`block.timestamp`. -/
def issueLoan (s : CreditLoanState) (caller borrower principal time : Nat) :
    Except LoanError CreditLoanState :=
  if caller ≠ s.owner then Except.error LoanError.NotOwner
  else if principal = 0 then Except.error LoanError.InvalidAmount
  else if principal > s.liquidity then Except.error LoanError.InsufficientLiquidity
  else if creditGateRejects s borrower then Except.error LoanError.InsufficientCreditScore
  else
    let serviceFee := principal * s.serviceFeeRate / 10000
    let totalOwed := principal + serviceFee
    let loanId := s.nextLoanId
    let loan : Loan :=
      { id := loanId, borrower := borrower, principal := principal
        serviceFee := serviceFee, totalOwed := totalOwed, amountRepaid := 0
        timestamp := time, active := true }
    Except.ok
      { s with
        nextLoanId := loanId + 1
        loans := fun i => if i = loanId then some loan else s.loans i
        borrowerLoans := fun b =>
          if b = borrower then s.borrowerLoans b ++ [loanId] else s.borrowerLoans b
        liquidity := s.liquidity - principal }

/-- Mirrors `CreditLoan.repay` (callable by anyone). -/
def repay (s : CreditLoanState) (caller loanId amount : Nat) :
    Except LoanError CreditLoanState :=
  if amount = 0 then Except.error LoanError.InvalidAmount
  else
    match s.loans loanId with
    | none => Except.error LoanError.NoActiveLoan
    | some loan =>
        if loan.active = false then Except.error LoanError.NoActiveLoan
        else if loan.borrower ≠ caller then Except.error LoanError.NotBorrower
        else
          let remainingBalance := loan.totalOwed - loan.amountRepaid
          if amount > remainingBalance then Except.error LoanError.OverpaymentNotAllowed
          else
            let newRepaid := loan.amountRepaid + amount
            let newRemaining := loan.totalOwed - newRepaid
            let loan' : Loan :=
              { loan with
                amountRepaid := newRepaid
                active := if newRemaining = 0 then false else loan.active }
            Except.ok
              { s with
                loans := fun i => if i = loanId then some loan' else s.loans i
                liquidity := s.liquidity + amount }

/-- Mirrors `CreditLoan.cancelLoan` (owner-only). -/
def cancelLoan (s : CreditLoanState) (caller loanId : Nat) :
    Except LoanError CreditLoanState :=
  if caller ≠ s.owner then Except.error LoanError.NotOwner
  else
    match s.loans loanId with
    | none => Except.error LoanError.NoActiveLoan
    | some loan =>
        if loan.active = false then Except.error LoanError.NoActiveLoan
        else
          Except.ok
            { s with
              loans := fun i =>
                if i = loanId then some { loan with active := false } else s.loans i }

/-- Mirrors `CreditLoan.withdraw` (owner-only). -/
def withdraw (s : CreditLoanState) (caller amount : Nat) :
    Except LoanError CreditLoanState :=
  if caller ≠ s.owner then Except.error LoanError.NotOwner
  else if amount = 0 then Except.error LoanError.InvalidAmount
  else if amount > s.liquidity then Except.error LoanError.InvalidAmount
  else Except.ok { s with liquidity := s.liquidity - amount }

/-- Mirrors `CreditLoan.updateServiceFeeRate` (owner-only). -/
def updateServiceFeeRate (s : CreditLoanState) (caller newRate : Nat) :
    Except LoanError CreditLoanState :=
  if caller ≠ s.owner then Except.error LoanError.NotOwner
  else if newRate > 5000 then Except.error LoanError.InvalidServiceFeeRate
  else Except.ok { s with serviceFeeRate := newRate }

/-- Mirrors `CreditLoan.setCreditScoreContract` (owner-only). -/
def setCreditScoreContract (s : CreditLoanState) (caller : Nat)
    (c : Option (Nat → Nat)) : Except LoanError CreditLoanState :=
  if caller ≠ s.owner then Except.error LoanError.NotOwner
  else Except.ok { s with creditScoreContract := c }

/-- Mirrors `CreditLoan.updateMinCreditScore` (owner-only). -/
def updateMinCreditScore (s : CreditLoanState) (caller newMin : Nat) :
    Except LoanError CreditLoanState :=
  if caller ≠ s.owner then Except.error LoanError.NotOwner
  else Except.ok { s with minCreditScore := newMin }

/-- Mirrors `CreditLoan.getRemainingBalance`. -/
def getRemainingBalance (s : CreditLoanState) (loanId : Nat) : Nat :=
  match s.loans loanId with
  | none => 0
  | some loan => if loan.active = false then 0 else loan.totalOwed - loan.amountRepaid

/-- The state-changing entry points of `CreditLoan`. -/
inductive LoanOp where
  | fund (caller amount : Nat)
  | issueLoan (caller borrower principal time : Nat)
  | repay (caller loanId amount : Nat)
  | cancelLoan (caller loanId : Nat)
  | withdraw (caller amount : Nat)
  | updateServiceFeeRate (caller newRate : Nat)
  | setCreditScoreContract (caller : Nat) (c : Option (Nat → Nat))
  | updateMinCreditScore (caller newMin : Nat)

/-- Dispatches one `CreditLoan` transaction to its entry point. -/
def step (s : CreditLoanState) : LoanOp → Except LoanError CreditLoanState
  | LoanOp.fund caller amount => fund s caller amount
  | LoanOp.issueLoan caller borrower principal time => issueLoan s caller borrower principal time
  | LoanOp.repay caller loanId amount => repay s caller loanId amount
  | LoanOp.cancelLoan caller loanId => cancelLoan s caller loanId
  | LoanOp.withdraw caller amount => withdraw s caller amount
  | LoanOp.updateServiceFeeRate caller newRate => updateServiceFeeRate s caller newRate
  | LoanOp.setCreditScoreContract caller c => setCreditScoreContract s caller c
  | LoanOp.updateMinCreditScore caller newMin => updateMinCreditScore s caller newMin

/-- Runs one transaction: a revert leaves storage unchanged. -/
def exec (s : CreditLoanState) (op : LoanOp) : CreditLoanState :=
  match step s op with
  | Except.ok s' => s'
  | Except.error _ => s

/-- States of the `CreditLoan` ledger reachable from deployment by any
sequence of transactions. -/
inductive Reachable : CreditLoanState → Prop where
  | init (deployer : Nat) : Reachable (initialLoanState deployer)
  | next (s : CreditLoanState) (op : LoanOp) : Reachable s → Reachable (exec s op)

/-! ## Specification predicates and concrete fixtures -/

/-- The liquidity change each successful `CreditLoan` transaction is
specified to make: `fund` and `repay` add exactly their amount, `issueLoan`
subtracts exactly the principal, `withdraw` subtracts exactly its amount
(all strictly, so the amount is positive), and every other operation leaves
liquidity untouched. -/
def liquidityChange (s : CreditLoanState) (op : LoanOp) (s' : CreditLoanState) : Prop :=
  match op with
  | LoanOp.fund _ amount => s'.liquidity = s.liquidity + amount ∧ 0 < amount
  | LoanOp.issueLoan _ _ principal _ => s'.liquidity + principal = s.liquidity ∧ 0 < principal
  | LoanOp.repay _ _ amount => s'.liquidity = s.liquidity + amount ∧ 0 < amount
  | LoanOp.withdraw _ amount => s'.liquidity + amount = s.liquidity ∧ 0 < amount
  | _ => s'.liquidity = s.liquidity

/-- Well-formedness of a ledger state: every stored loan has
`amountRepaid ≤ totalOwed`, and every id at or above `nextLoanId` is still
unwritten. -/
def GoodState (s : CreditLoanState) : Prop :=
  (∀ i l, s.loans i = some l → l.amountRepaid ≤ l.totalOwed) ∧
  (∀ i, s.nextLoanId ≤ i → s.loans i = none)

/-- A small valid history used to witness the scorer theorems. -/
def h0 : FreelanceHistory :=
  { platforms := [⟨1, 0, 0, 0, 0⟩], lookbackMonths := 1, snapshotTimestamp := 1 }

/-- The decision the scorer computes on `h0`. -/
def d0 : CreditDecision :=
  { creditScore := 382, borrowingLimit := 0, aprBps := 1927
    repaymentPeriodDays := 90, repaymentCount := 3 }

/-- Scenario A of the spec: three platforms, earnings 12,500e6 / 6,200e6 /
9,800e6, on-time ratios 9700/9300/9900 bps, sample counts 26/24/28,
lookback 12 months; platform ids, payout epochs and snapshot are free. -/
def histA (p1 p2 p3 e1 e2 e3 snap : Nat) : FreelanceHistory :=
  { platforms :=
      [ ⟨p1, 12500000000, 26, e1, 9700⟩
      , ⟨p2, 6200000000, 24, e2, 9300⟩
      , ⟨p3, 9800000000, 28, e3, 9900⟩ ]
    lookbackMonths := 12
    snapshotTimestamp := snap }

/-- A ledger with gating enabled (`minCreditScore = 700`) but no credit
score contract configured (`address(0)`), as a fresh deployment has. -/
def gateState : CreditLoanState :=
  { initialLoanState 1 with liquidity := 100, minCreditScore := 700 }

/-- A ledger with gating enabled and a credit score contract configured in
which borrower 2 has stored score 650. -/
def gateStateC : CreditLoanState :=
  { initialLoanState 1 with
    liquidity := 100, minCreditScore := 700
    creditScoreContract := some (fun u => if u = 2 then 650 else 0) }

/-- Scenario D of the spec, step by step: fund 100,000e6, issue 10,000e6 to
borrower 2 at the default 1000 bps fee, repay 5,000e6, repay 6,000e6. -/
def sD0 : CreditLoanState := initialLoanState 1

def sD1 : CreditLoanState := exec sD0 (LoanOp.fund 1 100000000000)

def sD2 : CreditLoanState := exec sD1 (LoanOp.issueLoan 1 2 10000000000 0)

def sD3 : CreditLoanState := exec sD2 (LoanOp.repay 2 0 5000000000)

def sD4 : CreditLoanState := exec sD3 (LoanOp.repay 2 0 6000000000)

/-- A score store whose admin is 1 and where subject 3 holds score 700. -/
def csW : CreditScoreState :=
  ⟨1, fun u => if u = 3 then 700 else 0, fun _ => 0⟩

/-! ## Scorer lemmas -/

theorem clamp_le (x m : Nat) : (if x > m then m else x) ≤ m := by
  split <;> omega

/-- Structure of every successful `_buildDecision` result: the score is
clamped to `MAX_SCORE` and the remaining fields are derived from it. -/
theorem buildDecision_ok_shape (h : FreelanceHistory) (d : CreditDecision)
    (hd : buildDecision h = Except.ok d) :
    d.creditScore ≤ MAX_SCORE ∧ d.aprBps = deriveApr d.creditScore ∧
      d.repaymentPeriodDays = (schedule d.creditScore).1 ∧
      d.repaymentCount = (schedule d.creditScore).2 := by
  unfold buildDecision at hd
  split at hd
  · exact absurd hd (by simp)
  · rw [Except.ok.injEq] at hd
    subst hd
    exact ⟨clamp_le _ _, rfl, rfl, rfl⟩

/-- `_deriveApr` on a clamped score: the 500-floor branch is dead and the
result sits in `[1000, 2500]`. -/
theorem deriveApr_spec (score : Nat) (hs : score ≤ MAX_SCORE) :
    deriveApr score = 2500 - score * 1500 / 1000 ∧
      1000 ≤ deriveApr score ∧ deriveApr score ≤ 2500 := by
  unfold deriveApr MAX_SCORE at *
  dsimp only
  split <;> omega

/-- C2: for every FreelanceHistory that passes the validity check (the
scorer returns a decision rather than InvalidHistory), the decision
satisfies 0 ≤ creditScore ≤ 1000 and 500 ≤ aprBps ≤ 2500. -/
theorem scorer_decision_bounds (h : FreelanceHistory) (d : CreditDecision)
    (hd : buildDecision h = Except.ok d) :
    0 ≤ d.creditScore ∧ d.creditScore ≤ 1000 ∧
      500 ≤ d.aprBps ∧ d.aprBps ≤ 2500 := by
  obtain ⟨hscore, hapr, -, -⟩ := buildDecision_ok_shape h d hd
  obtain ⟨-, hlo, hhi⟩ := deriveApr_spec d.creditScore hscore
  unfold MAX_SCORE at hscore
  rw [hapr]
  exact ⟨Nat.zero_le _, hscore, by omega, hhi⟩

theorem scorer_decision_bounds_witness :
    0 ≤ d0.creditScore ∧ d0.creditScore ≤ 1000 ∧
      500 ≤ d0.aprBps ∧ d0.aprBps ≤ 2500 :=
  scorer_decision_bounds h0 d0 rfl

/-- C9: for every history that passes the validity check, the returned APR
is at least 1000 bps and equals the floor-free formula 2500 - score*1500/1000:
the 500-floor branch of `_deriveApr` is never taken. -/
theorem apr_floor_branch_dead (h : FreelanceHistory) (d : CreditDecision)
    (hd : buildDecision h = Except.ok d) :
    1000 ≤ d.aprBps ∧ d.aprBps = 2500 - d.creditScore * 1500 / 1000 := by
  obtain ⟨hscore, hapr, -, -⟩ := buildDecision_ok_shape h d hd
  obtain ⟨heq, hlo, -⟩ := deriveApr_spec d.creditScore hscore
  rw [hapr]
  exact ⟨hlo, heq⟩

theorem apr_floor_branch_dead_witness :
    1000 ≤ d0.aprBps ∧ d0.aprBps = 2500 - d0.creditScore * 1500 / 1000 :=
  apr_floor_branch_dead h0 d0 rfl

/-- C5: the freshness component equals 150 when the freshest payout is 0 or
not before the snapshot, 0 at 90+ stale days, and the linear decay
otherwise. -/
theorem freshness_component_formula (snapshotTimestamp freshestPayout : Nat) :
    freshnessScore snapshotTimestamp freshestPayout =
      if freshestPayout = 0 ∨ snapshotTimestamp ≤ freshestPayout then 150
      else if (snapshotTimestamp - freshestPayout) / 86400 ≥ 90 then 0
      else 150 - ((snapshotTimestamp - freshestPayout) / 86400) * 150 / 90 := rfl

/-- C4: previewDecision returns a decision bit-identical to
evaluateAndStore on the same input, previewDecision leaves the scorer state
unchanged, and evaluateAndStore overwrites exactly the caller's
last-decision slot with the returned decision (errors also coincide). -/
theorem preview_evaluate_equivalence (st : ScorerState) (caller : Nat)
    (h : FreelanceHistory) :
    (∀ d, buildDecision h = Except.ok d →
      evaluateAndStore st caller h =
        Except.ok (d, ⟨fun a => if a = caller then d else st.lastDecision a⟩) ∧
      previewDecision st h = Except.ok (d, st)) ∧
    (∀ e, buildDecision h = Except.error e →
      evaluateAndStore st caller h = Except.error e ∧
      previewDecision st h = Except.error e) := by
  constructor
  · intro d hd
    unfold evaluateAndStore previewDecision
    rw [hd]
    exact ⟨rfl, rfl⟩
  · intro e he
    unfold evaluateAndStore previewDecision
    rw [he]
    exact ⟨rfl, rfl⟩

theorem preview_evaluate_equivalence_witness :
    evaluateAndStore initialScorerState 7 h0 =
      Except.ok (d0, ⟨fun a => if a = 7 then d0 else initialScorerState.lastDecision a⟩) ∧
    previewDecision initialScorerState h0 = Except.ok (d0, initialScorerState) :=
  (preview_evaluate_equivalence initialScorerState 7 h0).1 d0 rfl

/-- C8: on the Scenario A history, for any positive snapshot timestamp at
least every payout epoch, the scorer returns creditScore ≥ 700,
aprBps ≤ 1500, repaymentCount = 6 and repaymentPeriodDays = 180. -/
theorem scenario_a_scoring (p1 p2 p3 e1 e2 e3 snap : Nat) (hs : 0 < snap)
    (h1 : e1 ≤ snap) (h2 : e2 ≤ snap) (h3 : e3 ≤ snap) :
    ∃ d, buildDecision (histA p1 p2 p3 e1 e2 e3 snap) = Except.ok d ∧
      700 ≤ d.creditScore ∧ d.aprBps ≤ 1500 ∧
      d.repaymentCount = 6 ∧ d.repaymentPeriodDays = 180 := by
  refine ⟨⟨1000, 11400000000, 1000, 180, 6⟩, ?_, by norm_num, by norm_num, rfl, rfl⟩
  unfold buildDecision histA
  rw [if_neg (by simp only [List.length_cons, List.length_nil]; omega)]
  simp only [List.foldl_cons, List.foldl_nil, accumReceipt]
  norm_num [cap, BASIS_POINTS, MAX_SCORE, deriveApr, schedule]
  split_ifs <;> omega

theorem scenario_a_scoring_witness :
    ∃ d, buildDecision (histA 1 2 3 10 20 30 100) = Except.ok d ∧
      700 ≤ d.creditScore ∧ d.aprBps ≤ 1500 ∧
      d.repaymentCount = 6 ∧ d.repaymentPeriodDays = 180 :=
  scenario_a_scoring 1 2 3 10 20 30 100 (by norm_num) (by norm_num)
    (by norm_num) (by norm_num)

/-! ## Ledger theorems -/

/-- C6: every successful state-changing ledger operation changes pool
liquidity by exactly its stated amount and nothing more: issueLoan strictly
decreases liquidity by exactly principal (not totalOwed), repay strictly
increases it by exactly the repaid amount, fund increases it by exactly its
argument, withdraw decreases it by exactly its argument, and every other
operation leaves it unchanged. -/
theorem liquidity_change_exact (s : CreditLoanState) (op : LoanOp) (s' : CreditLoanState)
    (h : step s op = Except.ok s') : liquidityChange s op s' := by
  cases op with
  | fund caller amount =>
      simp only [step, fund] at h
      simp only [liquidityChange]
      repeat' split at h
      all_goals first
        | (rw [Except.ok.injEq] at h; subst h; exact ⟨rfl, by omega⟩)
        | exact absurd h (by simp)
  | issueLoan caller borrower principal time =>
      simp only [step, issueLoan] at h
      simp only [liquidityChange]
      repeat' split at h
      all_goals first
        | (rw [Except.ok.injEq] at h; subst h;
           refine ⟨?_, by omega⟩;
           show s.liquidity - principal + principal = s.liquidity;
           omega)
        | exact absurd h (by simp)
  | repay caller loanId amount =>
      simp only [step, repay] at h
      simp only [liquidityChange]
      repeat' split at h
      all_goals first
        | (rw [Except.ok.injEq] at h; subst h; exact ⟨rfl, by omega⟩)
        | exact absurd h (by simp)
  | cancelLoan caller loanId =>
      simp only [step, cancelLoan] at h
      simp only [liquidityChange]
      repeat' split at h
      all_goals first
        | (rw [Except.ok.injEq] at h; subst h; rfl)
        | exact absurd h (by simp)
  | withdraw caller amount =>
      simp only [step, withdraw] at h
      simp only [liquidityChange]
      repeat' split at h
      all_goals first
        | (rw [Except.ok.injEq] at h; subst h;
           refine ⟨?_, by omega⟩;
           show s.liquidity - amount + amount = s.liquidity;
           omega)
        | exact absurd h (by simp)
  | updateServiceFeeRate caller newRate =>
      simp only [step, updateServiceFeeRate] at h
      simp only [liquidityChange]
      repeat' split at h
      all_goals first
        | (rw [Except.ok.injEq] at h; subst h; rfl)
        | exact absurd h (by simp)
  | setCreditScoreContract caller c =>
      simp only [step, setCreditScoreContract] at h
      simp only [liquidityChange]
      repeat' split at h
      all_goals first
        | (rw [Except.ok.injEq] at h; subst h; rfl)
        | exact absurd h (by simp)
  | updateMinCreditScore caller newMin =>
      simp only [step, updateMinCreditScore] at h
      simp only [liquidityChange]
      repeat' split at h
      all_goals first
        | (rw [Except.ok.injEq] at h; subst h; rfl)
        | exact absurd h (by simp)

theorem liquidity_change_exact_witness :
    liquidityChange sD0 (LoanOp.fund 1 100000000000) sD1 :=
  liquidity_change_exact sD0 (LoanOp.fund 1 100000000000) sD1 rfl

/-- C3 (amended): when minCreditScore > 0 AND a credit score contract is
configured, issueLoan (called by the owner with a nonzero principal within
liquidity) fails with InsufficientCreditScore exactly when the stored score
is below minCreditScore, and a borrower whose stored score reads 0 always
fails; without a configured contract the score check is skipped entirely. -/
theorem credit_gating_with_contract (s : CreditLoanState) (scores : Nat → Nat)
    (borrower principal time : Nat)
    (hmin : 0 < s.minCreditScore) (hc : s.creditScoreContract = some scores)
    (hp : principal ≠ 0) (hliq : principal ≤ s.liquidity) :
    (issueLoan s s.owner borrower principal time =
        Except.error LoanError.InsufficientCreditScore ↔
      scores borrower < s.minCreditScore) ∧
    (scores borrower = 0 →
      issueLoan s s.owner borrower principal time =
        Except.error LoanError.InsufficientCreditScore) := by
  have hgate : creditGateRejects s borrower ↔ scores borrower < s.minCreditScore := by
    unfold creditGateRejects
    rw [hc]
    exact ⟨fun hg => hg.2, fun h2 => ⟨hmin, h2⟩⟩
  unfold issueLoan
  rw [if_neg (by simp), if_neg hp, if_neg (by omega)]
  by_cases hb : scores borrower < s.minCreditScore
  · rw [if_pos (hgate.mpr hb)]
    exact ⟨⟨fun _ => hb, fun _ => rfl⟩, fun _ => rfl⟩
  · rw [if_neg (fun hg => hb (hgate.mp hg))]
    refine ⟨⟨fun he => absurd he (by simp), fun hlt => absurd hlt hb⟩, fun hz => ?_⟩
    exact absurd (by omega : scores borrower < s.minCreditScore) hb

theorem credit_gating_with_contract_witness :
    issueLoan gateStateC gateStateC.owner 2 50 0 =
      Except.error LoanError.InsufficientCreditScore :=
  ((credit_gating_with_contract gateStateC (fun u => if u = 2 then 650 else 0) 2 50 0
      (by decide) rfl (by decide) (by decide)).1).mpr (by decide)

/-- C3 (counterexample to the claim as stated): in a ledger where gating is
enabled (minCreditScore = 700 > 0) but no credit score contract is
configured, issueLoan to a borrower with no stored score succeeds instead
of failing with InsufficientCreditScore, so no score is fetched. -/
theorem credit_gating_counterexample :
    0 < gateState.minCreditScore ∧ gateState.creditScoreContract = none ∧
    ∃ s', issueLoan gateState gateState.owner 2 50 0 = Except.ok s' :=
  ⟨by decide, rfl, _, rfl⟩

/-- C7: in the Scenario D lifecycle (fund 100,000e6; issue 10,000e6 at
1000 bps so serviceFee = 1,000e6 and totalOwed = 11,000e6; repay 5,000e6
leaving 6,000e6 with the loan active; repay 6,000e6 leaving 0 and flipping
active to false) every step succeeds, and any subsequent repay of any
positive amount by any caller fails with NoActiveLoan. -/
theorem scenario_d_lifecycle (caller amount : Nat) (ha : 0 < amount) :
    step sD0 (LoanOp.fund 1 100000000000) = Except.ok sD1 ∧
    step sD1 (LoanOp.issueLoan 1 2 10000000000 0) = Except.ok sD2 ∧
    (∃ l, sD2.loans 0 = some l ∧ l.serviceFee = 1000000000 ∧
      l.totalOwed = 11000000000 ∧ l.active = true) ∧
    step sD2 (LoanOp.repay 2 0 5000000000) = Except.ok sD3 ∧
    getRemainingBalance sD3 0 = 6000000000 ∧
    (∃ l, sD3.loans 0 = some l ∧ l.active = true) ∧
    step sD3 (LoanOp.repay 2 0 6000000000) = Except.ok sD4 ∧
    getRemainingBalance sD4 0 = 0 ∧
    (∃ l, sD4.loans 0 = some l ∧ l.amountRepaid = 11000000000 ∧ l.active = false) ∧
    step sD4 (LoanOp.repay caller 0 amount) = Except.error LoanError.NoActiveLoan := by
  refine ⟨rfl, rfl, ⟨_, rfl, rfl, rfl, rfl⟩, rfl, rfl, ⟨_, rfl, rfl⟩, rfl, rfl,
    ⟨_, rfl, rfl, rfl⟩, ?_⟩
  simp only [step, repay]
  rw [if_neg (by omega)]
  have h4 : sD4.loans 0 =
      some ⟨0, 2, 10000000000, 1000000000, 11000000000, 11000000000, 0, false⟩ := rfl
  rw [h4]
  rfl

theorem scenario_d_lifecycle_witness :
    0 < 1 ∧ step sD4 (LoanOp.repay 3 0 1) = Except.error LoanError.NoActiveLoan :=
  ⟨by decide, (scenario_d_lifecycle 3 1 (by decide)).2.2.2.2.2.2.2.2.2⟩

/-! ## Ledger state-machine invariant -/

theorem initial_good (deployer : Nat) : GoodState (initialLoanState deployer) :=
  ⟨fun i l h => by simp [initialLoanState] at h, fun i _ => rfl⟩

/-- Every successful transaction preserves `GoodState`, never decreases any
stored loan's `amountRepaid`, and never reactivates an inactive loan. -/
theorem step_good_and_mono (s : CreditLoanState) (hs : GoodState s) (op : LoanOp)
    (s' : CreditLoanState) (h : step s op = Except.ok s') :
    GoodState s' ∧
    ∀ i l, s.loans i = some l → ∃ l', s'.loans i = some l' ∧
      l.amountRepaid ≤ l'.amountRepaid ∧ (l.active = false → l'.active = false) := by
  obtain ⟨hb, hf⟩ := hs
  cases op with
  | fund caller amount =>
      simp only [step, fund] at h
      by_cases h1 : caller ≠ s.owner
      · rw [if_pos h1] at h; exact absurd h (by simp)
      rw [if_neg h1] at h
      by_cases h2 : amount = 0
      · rw [if_pos h2] at h; exact absurd h (by simp)
      rw [if_neg h2, Except.ok.injEq] at h
      subst h
      exact ⟨⟨hb, hf⟩, fun i l hl => ⟨l, hl, le_refl _, fun ha => ha⟩⟩
  | issueLoan caller borrower principal time =>
      simp only [step, issueLoan] at h
      by_cases h1 : caller ≠ s.owner
      · rw [if_pos h1] at h; exact absurd h (by simp)
      rw [if_neg h1] at h
      by_cases h2 : principal = 0
      · rw [if_pos h2] at h; exact absurd h (by simp)
      rw [if_neg h2] at h
      by_cases h3 : principal > s.liquidity
      · rw [if_pos h3] at h; exact absurd h (by simp)
      rw [if_neg h3] at h
      by_cases h4 : creditGateRejects s borrower
      · rw [if_pos h4] at h; exact absurd h (by simp)
      rw [if_neg h4, Except.ok.injEq] at h
      subst h
      refine ⟨⟨fun i l hl => ?_, fun i hi => ?_⟩, fun i l hl => ?_⟩
      · dsimp only at hl
        split at hl
        · rw [Option.some.injEq] at hl
          subst hl
          exact Nat.zero_le _
        · exact hb i l hl
      · dsimp only at hi ⊢
        split
        · rename_i hieq
          exact absurd hieq (by omega)
        · exact hf i (by omega)
      · dsimp only
        split
        · rename_i hieq
          have hn := hf i (by omega)
          rw [hn] at hl
          exact absurd hl (by simp)
        · exact ⟨l, hl, le_refl _, fun ha => ha⟩
  | repay caller loanId amount =>
      simp only [step, repay] at h
      by_cases hz : amount = 0
      · rw [if_pos hz] at h; exact absurd h (by simp)
      rw [if_neg hz] at h
      cases hloan : s.loans loanId with
      | none => rw [hloan] at h; exact absurd h (by simp)
      | some loan =>
        rw [hloan] at h
        dsimp only at h
        by_cases hact : loan.active = false
        · rw [if_pos hact] at h; exact absurd h (by simp)
        rw [if_neg hact] at h
        by_cases hbor : loan.borrower ≠ caller
        · rw [if_pos hbor] at h; exact absurd h (by simp)
        rw [if_neg hbor] at h
        by_cases hover : amount > loan.totalOwed - loan.amountRepaid
        · rw [if_pos hover] at h; exact absurd h (by simp)
        rw [if_neg hover, Except.ok.injEq] at h
        subst h
        refine ⟨⟨fun i l hl => ?_, fun i hi => ?_⟩, fun i l hl => ?_⟩
        · dsimp only at hl
          split at hl
          · rw [Option.some.injEq] at hl
            subst hl
            dsimp only
            omega
          · exact hb i l hl
        · dsimp only at hi ⊢
          split
          · rename_i hieq
            have hn := hf i hi
            rw [hieq, hloan] at hn
            exact absurd hn (by simp)
          · exact hf i hi
        · dsimp only
          split
          · rename_i hieq
            rw [hieq, hloan, Option.some.injEq] at hl
            subst hl
            refine ⟨_, rfl, ?_, fun hfa => absurd hfa hact⟩
            dsimp only
            omega
          · exact ⟨l, hl, le_refl _, fun ha => ha⟩
  | cancelLoan caller loanId =>
      simp only [step, cancelLoan] at h
      by_cases h1 : caller ≠ s.owner
      · rw [if_pos h1] at h; exact absurd h (by simp)
      rw [if_neg h1] at h
      cases hloan : s.loans loanId with
      | none => rw [hloan] at h; exact absurd h (by simp)
      | some loan =>
        rw [hloan] at h
        dsimp only at h
        by_cases hact : loan.active = false
        · rw [if_pos hact] at h; exact absurd h (by simp)
        rw [if_neg hact, Except.ok.injEq] at h
        subst h
        refine ⟨⟨fun i l hl => ?_, fun i hi => ?_⟩, fun i l hl => ?_⟩
        · dsimp only at hl
          split at hl
          · rw [Option.some.injEq] at hl
            subst hl
            exact hb loanId loan hloan
          · exact hb i l hl
        · dsimp only at hi ⊢
          split
          · rename_i hieq
            have hn := hf i hi
            rw [hieq, hloan] at hn
            exact absurd hn (by simp)
          · exact hf i hi
        · dsimp only
          split
          · rename_i hieq
            rw [hieq, hloan, Option.some.injEq] at hl
            subst hl
            exact ⟨_, rfl, le_refl _, fun _ => rfl⟩
          · exact ⟨l, hl, le_refl _, fun ha => ha⟩
  | withdraw caller amount =>
      simp only [step, withdraw] at h
      by_cases h1 : caller ≠ s.owner
      · rw [if_pos h1] at h; exact absurd h (by simp)
      rw [if_neg h1] at h
      by_cases h2 : amount = 0
      · rw [if_pos h2] at h; exact absurd h (by simp)
      rw [if_neg h2] at h
      by_cases h3 : amount > s.liquidity
      · rw [if_pos h3] at h; exact absurd h (by simp)
      rw [if_neg h3, Except.ok.injEq] at h
      subst h
      exact ⟨⟨hb, hf⟩, fun i l hl => ⟨l, hl, le_refl _, fun ha => ha⟩⟩
  | updateServiceFeeRate caller newRate =>
      simp only [step, updateServiceFeeRate] at h
      by_cases h1 : caller ≠ s.owner
      · rw [if_pos h1] at h; exact absurd h (by simp)
      rw [if_neg h1] at h
      by_cases h2 : newRate > 5000
      · rw [if_pos h2] at h; exact absurd h (by simp)
      rw [if_neg h2, Except.ok.injEq] at h
      subst h
      exact ⟨⟨hb, hf⟩, fun i l hl => ⟨l, hl, le_refl _, fun ha => ha⟩⟩
  | setCreditScoreContract caller c =>
      simp only [step, setCreditScoreContract] at h
      by_cases h1 : caller ≠ s.owner
      · rw [if_pos h1] at h; exact absurd h (by simp)
      rw [if_neg h1, Except.ok.injEq] at h
      subst h
      exact ⟨⟨hb, hf⟩, fun i l hl => ⟨l, hl, le_refl _, fun ha => ha⟩⟩
  | updateMinCreditScore caller newMin =>
      simp only [step, updateMinCreditScore] at h
      by_cases h1 : caller ≠ s.owner
      · rw [if_pos h1] at h; exact absurd h (by simp)
      rw [if_neg h1, Except.ok.injEq] at h
      subst h
      exact ⟨⟨hb, hf⟩, fun i l hl => ⟨l, hl, le_refl _, fun ha => ha⟩⟩

/-- Transaction execution (revert = no change) preserves `GoodState` and
the per-loan monotonicity facts. -/
theorem exec_good_and_mono (s : CreditLoanState) (hs : GoodState s) (op : LoanOp) :
    GoodState (exec s op) ∧
    ∀ i l, s.loans i = some l → ∃ l', (exec s op).loans i = some l' ∧
      l.amountRepaid ≤ l'.amountRepaid ∧ (l.active = false → l'.active = false) := by
  unfold exec
  cases hstep : step s op with
  | ok s1 => exact step_good_and_mono s hs op s1 hstep
  | error e => exact ⟨hs, fun i l hl => ⟨l, hl, le_refl _, fun ha => ha⟩⟩

theorem reachable_good (s : CreditLoanState) (hs : Reachable s) : GoodState s := by
  induction hs with
  | init d => exact initial_good d
  | next s1 op hr ih => exact (exec_good_and_mono s1 ih op).1

/-- C1: in every reachable ledger state, every stored loan satisfies
0 ≤ amountRepaid ≤ totalOwed; across any further operation amountRepaid
never decreases and an inactive loan never becomes active again; and no
repay call on an inactive loan succeeds. -/
theorem ledger_invariant_and_absorbing (s : CreditLoanState) (hs : Reachable s) :
    (∀ i l, s.loans i = some l → 0 ≤ l.amountRepaid ∧ l.amountRepaid ≤ l.totalOwed) ∧
    (∀ op i l, s.loans i = some l → ∃ l', (exec s op).loans i = some l' ∧
      l.amountRepaid ≤ l'.amountRepaid ∧ (l.active = false → l'.active = false)) ∧
    (∀ caller loanId amount l, s.loans loanId = some l → l.active = false →
      ∀ s', step s (LoanOp.repay caller loanId amount) ≠ Except.ok s') := by
  have hg := reachable_good s hs
  refine ⟨fun i l hl => ⟨Nat.zero_le _, hg.1 i l hl⟩,
          fun op i l hl => (exec_good_and_mono s hg op).2 i l hl,
          fun caller loanId amount l hl hact s' hcontra => ?_⟩
  simp only [step, repay] at hcontra
  by_cases hz : amount = 0
  · rw [if_pos hz] at hcontra; exact absurd hcontra (by simp)
  rw [if_neg hz, hl] at hcontra
  dsimp only at hcontra
  rw [if_pos hact] at hcontra
  exact absurd hcontra (by simp)

theorem ledger_invariant_and_absorbing_witness :
    step sD4 (LoanOp.repay 2 0 5) ≠ Except.ok sD4 := by
  have hreach : Reachable sD4 :=
    Reachable.next _ _ (Reachable.next _ _ (Reachable.next _ _
      (Reachable.next _ _ (Reachable.init 1))))
  exact (ledger_invariant_and_absorbing sD4 hreach).2.2 2 0 5
    ⟨0, 2, 10000000000, 1000000000, 11000000000, 11000000000, 0, false⟩ rfl rfl sD4

/-! ## Score store theorems -/

theorem scoreExec_preserves_pos (st : CreditScoreState) (op : ScoreOp) (u : Nat)
    (hu : 0 < st.creditScore u) : 0 < (scoreExec st op).creditScore u := by
  cases op with
  | setAdmin caller newAdmin =>
      simp only [scoreExec, setAdmin]
      by_cases h1 : caller ≠ st.admin
      · rw [if_pos h1]; exact hu
      · rw [if_neg h1]
        by_cases h2 : newAdmin = 0
        · rw [if_pos h2]; exact hu
        · rw [if_neg h2]; exact hu
  | setCreditScore caller user score time =>
      simp only [scoreExec, setCreditScore]
      by_cases h1 : caller ≠ st.admin
      · rw [if_pos h1]; exact hu
      · rw [if_neg h1]
        by_cases h2 : user = 0
        · rw [if_pos h2]; exact hu
        · rw [if_neg h2]
          by_cases h3 : ¬ score > 0
          · rw [if_pos h3]; exact hu
          · rw [if_neg h3]
            push_neg at h3
            show 0 < if u = user then score else st.creditScore u
            split
            · omega
            · exact hu

theorem scoreExecList_preserves_pos (ops : List ScoreOp) (st : CreditScoreState) (u : Nat)
    (hu : 0 < st.creditScore u) : 0 < (scoreExecList st ops).creditScore u := by
  induction ops generalizing st with
  | nil => exact hu
  | cons op rest ih => exact ih (scoreExec st op) (scoreExec_preserves_pos st op u hu)

/-- C10: setCreditScore rejects a zero subject address or a zero score (the
call reverts with a require message and the transaction leaves the store
unchanged), and once a subject's stored score is positive no sequence of
public operations returns its reading to (0, 0). -/
theorem score_store_guard (st : CreditScoreState) (caller user score time : Nat) :
    (user = 0 ∨ score = 0 →
      (∃ msg, setCreditScore st caller user score time = Except.error msg) ∧
      scoreExec st (ScoreOp.setCreditScore caller user score time) = st) ∧
    (∀ u ops, 0 < (getCreditScore st u).1 →
      getCreditScore (scoreExecList st ops) u ≠ (0, 0)) := by
  constructor
  · intro hz
    have herr : ∃ msg, setCreditScore st caller user score time = Except.error msg := by
      unfold setCreditScore
      by_cases hadm : caller ≠ st.admin
      · rw [if_pos hadm]; exact ⟨_, rfl⟩
      · rw [if_neg hadm]
        by_cases huser : user = 0
        · rw [if_pos huser]; exact ⟨_, rfl⟩
        · rw [if_neg huser, if_pos (by omega)]; exact ⟨_, rfl⟩
    refine ⟨herr, ?_⟩
    obtain ⟨msg, hmsg⟩ := herr
    simp only [scoreExec]
    rw [hmsg]
  · intro u ops hu hcontra
    have h2 := scoreExecList_preserves_pos ops st u (by simpa [getCreditScore] using hu)
    have h1 : (scoreExecList st ops).creditScore u = 0 := by
      have h3 := congrArg Prod.fst hcontra
      simpa [getCreditScore] using h3
    omega

theorem score_store_guard_witness :
    (∃ msg, setCreditScore csW 1 0 700 5 = Except.error msg) ∧
    getCreditScore (scoreExecList csW [ScoreOp.setAdmin 1 4]) 3 ≠ (0, 0) :=
  ⟨((score_store_guard csW 1 0 700 5).1 (Or.inl rfl)).1,
   (score_store_guard csW 1 0 700 5).2 3 [ScoreOp.setAdmin 1 4] (by decide)⟩

end LoanShArc
